import Mathlib

/-!
Verification of the request/response core of the ReadySetHire interview
administration app.

The definitions below are a shallow embedding of the TypeScript source:

* `src/lib/api.ts` (reproduced in full inside
  `src/interview-app/src/pages/Questions/__tests__/QuestionsPage.test.tsx`,
  lines 336-557): `buildQuery`, `apiRequest`, the resource clients and
  `fetchCount`.
* `src/interview-app/src/pages/InterviewsPage.tsx`: `validateInterviewForm`.
* The summarization gateway (`llm-service`), which is documented in
  `docs/GenAI_API_Contract.md` but whose implementation is not part of the
  sources; it is modelled from the specification where needed.

JavaScript strings are modelled as Lean `String` (lists of characters),
JavaScript numbers that occur in the modelled code are integers and are
modelled as `Int`, JSON-representable JavaScript values as the inductive
`JsValue`, and JavaScript objects as association lists in key insertion
order (lookup takes the first occurrence; runtime objects have no duplicate
keys).  External library functions used by the source (`encodeURIComponent`,
`JSON.stringify`, `Number.parseInt`, `String.prototype.trim`, the
`/status\s+404/` regular expression) are modelled faithfully below;
`JSON.parse` is an uninterpreted function parameter, and `fetch` is modelled
by passing the `HttpResponse` that the network returned as an explicit
argument.
-/

/-! ## Generic character-list helpers -/

/-- `strTake n s` models `s.slice(0, n)` on a JavaScript string. -/
def strTake (n : Nat) (s : String) : String :=
  ⟨s.data.take n⟩

/-- `strDrop n s` models `s.slice(n)` on a JavaScript string. -/
def strDrop (n : Nat) (s : String) : String :=
  ⟨s.data.drop n⟩

/-- `listContains needle hay` is true when `needle` occurs as a contiguous
run inside `hay`; it models `String.prototype.includes`. -/
def listContains (needle hay : List Char) : Bool :=
  hay.tails.any (fun t => needle.isPrefixOf t)

/-- Whitespace as matched by JavaScript `\s` and trimmed by
`String.prototype.trim` (restricted to the ASCII range, which covers every
string the modelled code produces). -/
def isJsSpace (c : Char) : Bool :=
  c.toNat = 32 || c.toNat = 9 || c.toNat = 10 || c.toNat = 13 ||
    c.toNat = 11 || c.toNat = 12

/-- `strTrim` models `String.prototype.trim`. -/
def strTrim (s : String) : String :=
  ⟨((s.data.dropWhile isJsSpace).reverse.dropWhile isJsSpace).reverse⟩

/-! ## JSON-representable JavaScript values -/

/-- JSON-representable JavaScript runtime values.  Objects are association
lists in key insertion order. -/
inductive JsValue where
  | vstr (s : String)
  | vnum (n : Int)
  | vbool (b : Bool)
  | vnull
  | varr (xs : List JsValue)
  | vobj (fields : List (String × JsValue))
  deriving Repr

/-- `isRecord` from `api.ts`: `typeof value === 'object' && value !== null
&& !Array.isArray(value)`. -/
def isRecord : JsValue → Bool
  | .vobj _ => true
  | _ => false

/-- Escape one character the way `JSON.stringify` escapes characters inside
a JSON string literal. -/
def escapeJsonChar (c : Char) : List Char :=
  if c = '"' then ['\\', '"']
  else if c = '\\' then ['\\', '\\']
  else if c = '\n' then ['\\', 'n']
  else if c = '\t' then ['\\', 't']
  else if c = '\r' then ['\\', 'r']
  else if c.toNat = 8 then ['\\', 'b']
  else if c.toNat = 12 then ['\\', 'f']
  else if c.toNat < 32 then
    ['\\', 'u', '0', '0',
      (("0123456789abcdef").data.getD (c.toNat / 16) ('0')),
      (("0123456789abcdef").data.getD (c.toNat % 16) ('0'))]
  else [c]

/-- The JSON string literal for `s`, as produced by `JSON.stringify`. -/
def stringifyStr (s : String) : String :=
  ⟨'"' :: s.data.flatMap escapeJsonChar ++ ['"']⟩

/-- Comma-join, modelling `Array.prototype.join(',')` as used implicitly by
`JSON.stringify` for members. -/
def stringifyJoin : List String → String
  | [] => ""
  | [s] => s
  | s :: r :: rest => s ++ "," ++ stringifyJoin (r :: rest)

mutual

/-- `JSON.stringify` on JSON-representable values (no `undefined` inside). -/
def stringify : JsValue → String
  | .vstr s => stringifyStr s
  | .vnum n => toString n
  | .vbool b => if b then "true" else "false"
  | .vnull => "null"
  | .varr xs => "[" ++ stringifyJoin (stringifyList xs) ++ "]"
  | .vobj fs => "\x7b" ++ stringifyJoin (stringifyFields fs) ++ "\x7d"

/-- Stringify every element of an array body. -/
def stringifyList : List JsValue → List String
  | [] => []
  | v :: rest => stringify v :: stringifyList rest

/-- Stringify every `key: value` member of an object body. -/
def stringifyFields : List (String × JsValue) → List String
  | [] => []
  | (k, v) :: rest => (stringifyStr k ++ ":" ++ stringify v) :: stringifyFields rest

end

/-! ## The query encoder (`buildQuery`, api.ts lines 357-367) -/

/-- Scalar search-parameter values: `SearchParams = Record<string, string |
number | boolean>` in `api.ts`. -/
inductive Scalar where
  | str (s : String)
  | num (n : Int)
  | bool (b : Bool)
  deriving Repr, DecidableEq

/-- JavaScript `String(value)` on a scalar search-parameter value. -/
def scalarToString : Scalar → String
  | .str s => s
  | .num n => toString n
  | .bool b => if b then "true" else "false"

/-- The characters `encodeURIComponent` leaves unescaped:
`A-Z a-z 0-9 - _ . ! ~ * ' ( )` (codes 65-90, 97-122, 48-57, 45, 95, 46,
33, 126, 42, 39, 40, 41). -/
def isUnreservedURIChar (c : Char) : Bool :=
  (65 ≤ c.toNat && c.toNat ≤ 90) || (97 ≤ c.toNat && c.toNat ≤ 122) ||
    (48 ≤ c.toNat && c.toNat ≤ 57) || c.toNat = 45 || c.toNat = 95 ||
    c.toNat = 46 || c.toNat = 33 || c.toNat = 126 || c.toNat = 42 ||
    c.toNat = 39 || c.toNat = 40 || c.toNat = 41

/-- The UTF-8 encoding of a Unicode code point. -/
def utf8EncodeChar (n : Nat) : List Nat :=
  if n < 128 then [n]
  else if n < 2048 then [192 + n / 64, 128 + n % 64]
  else if n < 65536 then [224 + n / 4096, 128 + n / 64 % 64, 128 + n % 64]
  else [240 + n / 262144, 128 + n / 4096 % 64, 128 + n / 64 % 64, 128 + n % 64]

/-- Uppercase hexadecimal digit, as produced by `encodeURIComponent`. -/
def hexDigitChar (m : Nat) : Char :=
  ("0123456789ABCDEF").data.getD m ('X')

/-- The `%XY` escape for one byte. -/
def percentByte (b : Nat) : List Char :=
  ['%', hexDigitChar (b / 16), hexDigitChar (b % 16)]

/-- `encodeURIComponent`, character by character: unreserved characters are
kept, every other character contributes the `%XY` escapes of its UTF-8
bytes. -/
def encodeURIComponentChars : List Char → List Char
  | [] => []
  | c :: cs =>
      (if isUnreservedURIChar c then [c]
       else (utf8EncodeChar c.toNat).flatMap percentByte) ++
        encodeURIComponentChars cs

/-- The JavaScript `encodeURIComponent` builtin. -/
def encodeURIComponent (s : String) : String :=
  ⟨encodeURIComponentChars s.data⟩

/-- Numeric value of a hexadecimal digit character. -/
def hexVal (c : Char) : Nat :=
  if 48 ≤ c.toNat ∧ c.toNat ≤ 57 then c.toNat - 48
  else if 65 ≤ c.toNat ∧ c.toNat ≤ 70 then c.toNat - 55
  else if 97 ≤ c.toNat ∧ c.toNat ≤ 102 then c.toNat - 87
  else 0

/-- First phase of `decodeURIComponent`, as a left-to-right scan: turn the
escaped text back into the byte sequence it spells (a `%XY` escape yields
the byte `XY`, any other character yields its own UTF-8 bytes).  The second
argument is the scan state (0 = plain text, 1 = just after `%`, 2 = after
the first hex digit) and the third is the value of hex digits read so far.
Truncated escapes cannot arise from `encodeURIComponent` output and decode
to nothing. -/
def percentDecodeFold : List Char → Nat → Nat → List Nat
  | [], _, _ => []
  | c :: rest, 0, _ =>
      if c = '%' then percentDecodeFold rest 1 0
      else utf8EncodeChar c.toNat ++ percentDecodeFold rest 0 0
  | h :: rest, 1, _ => percentDecodeFold rest 2 (hexVal h)
  | l :: rest, _ + 2, acc => (16 * acc + hexVal l) :: percentDecodeFold rest 0 0

/-- `%XY`-unescaping of a whole component. -/
def percentDecodeBytes (cs : List Char) : List Nat :=
  percentDecodeFold cs 0 0

/-- Second phase of `decodeURIComponent`, as a left-to-right scan: decode a
UTF-8 byte sequence back into characters.  The second argument is the
number of continuation bytes still expected and the third is the scalar
value accumulated from the lead and continuation bytes seen so far
(malformed tails decode to nothing; they cannot arise from
`encodeURIComponent` output). -/
def utf8DecodeFold : List Nat → Nat → Nat → List Char
  | [], _, _ => []
  | b :: rest, 0, _ =>
      if b < 128 then Char.ofNat b :: utf8DecodeFold rest 0 0
      else if b < 224 then utf8DecodeFold rest 1 (b - 192)
      else if b < 240 then utf8DecodeFold rest 2 (b - 224)
      else utf8DecodeFold rest 3 (b - 240)
  | b :: rest, 1, acc => Char.ofNat (acc * 64 + (b - 128)) :: utf8DecodeFold rest 0 0
  | b :: rest, n + 2, acc => utf8DecodeFold rest (n + 1) (acc * 64 + (b - 128))

/-- UTF-8 decoding of a whole byte sequence. -/
def utf8DecodeBytes (bs : List Nat) : List Char :=
  utf8DecodeFold bs 0 0

/-- The JavaScript `decodeURIComponent` builtin on the character list of a
query component. -/
def decodeComponentChars (cs : List Char) : List Char :=
  utf8DecodeBytes (percentDecodeBytes cs)

/-- One encoded `key=value` entry of the query string:
`encodeURIComponent(key) + '=' + encodeURIComponent(String(value))`
(api.ts line 363). -/
def encPair (p : String × Scalar) : String :=
  encodeURIComponent p.1 ++ "=" ++ encodeURIComponent (scalarToString p.2)

/-- `Array.prototype.join('&')` (api.ts line 364). -/
def joinAmp : List String → String
  | [] => ""
  | [s] => s
  | s :: r :: rest => s ++ "&" ++ joinAmp (r :: rest)

/-- `buildQuery` from api.ts lines 357-367.  `none` models the absent
(`undefined`) argument. -/
def buildQuery : Option (List (String × Scalar)) → String
  | none => ""
  | some [] => ""
  | some (p :: ps) => "?" ++ joinAmp ((p :: ps).map encPair)

/-- Split a query string at `&` separators, as `URLSearchParams` does. -/
def splitAmp : List Char → List (List Char)
  | [] => [[]]
  | c :: cs =>
      if c = '&' then [] :: splitAmp cs
      else
        match splitAmp cs with
        | [] => [[c]]
        | g :: gs => (c :: g) :: gs

/-- Split one `key=value` entry at the first `=`, as `URLSearchParams`
does. -/
def splitKV : List Char → List Char × List Char
  | [] => ([], [])
  | c :: cs =>
      if c = '=' then ([], cs)
      else
        ((c :: (splitKV cs).1), (splitKV cs).2)

/-- Decode a query string (without its leading `?`) into its list of
decoded `(key, value)` entries, modelling iteration over
`new URLSearchParams(query)`. -/
def parseQuery (s : String) : List (String × String) :=
  if s.data = [] then []
  else
    (splitAmp s.data).map (fun kv =>
      (⟨decodeComponentChars (splitKV kv).1⟩, ⟨decodeComponentChars (splitKV kv).2⟩))

/-! ## The request dispatcher (`apiRequest`, api.ts lines 344-425) -/

/-- The process-wide configuration read from `src/config.ts`
(`API_BASE`, `JWT`, `USERNAME`). -/
structure Config where
  apiBase : String
  jwt : String
  username : String

/-- `HttpMethod = 'GET' | 'POST' | 'PATCH' | 'DELETE'`. -/
inductive HttpMethod where
  | GET
  | POST
  | PATCH
  | DELETE
  deriving Repr, DecidableEq

/-- `interface ApiRequestInit` (api.ts lines 348-352); `none` models an
absent optional property. -/
structure ApiRequestInit where
  method : Option HttpMethod := none
  search : Option (List (String × Scalar)) := none
  body : Option JsValue := none

/-- `JSON_METHODS = new Set(['POST', 'PATCH'])` (api.ts line 354),
as the membership test `JSON_METHODS.has(m)`. -/
def JSON_METHODS (m : HttpMethod) : Bool :=
  m = .POST || m = .PATCH

/-- `ERROR_SNIPPET_LENGTH = 200` (api.ts line 355). -/
def ERROR_SNIPPET_LENGTH : Nat := 200

/-- The object spread `{ username: USERNAME, ...bodyToSend }` (api.ts line
389) on the fields of a record body: the `username` member comes first; a
caller-supplied `username` overwrites the configured one while keeping that
first position; every other member follows in its original order. -/
def mergedFields (u : String) (fs : List (String × JsValue)) :
    List (String × JsValue) :=
  ("username", (List.lookup "username" fs).getD (.vstr u)) ::
    fs.filter (fun p => ¬ p.1 = "username")

/-- The identity merge of api.ts lines 388-390 on an arbitrary body value
(non-records pass through; the merge is only applied behind `isRecord`). -/
def mergeUsername (u : String) : JsValue → JsValue
  | .vobj fs => .vobj (mergedFields u fs)
  | v => v

/-- The outbound request handed to `fetch` (api.ts lines 392-407): the URL,
the method, the header list and the serialized body (absent when
`fetchInit.body` was never set). -/
structure OutgoingRequest where
  url : String
  method : HttpMethod
  headers : List (String × String)
  body : Option String

/-- The request-building half of `apiRequest` (api.ts lines 373-407):
defaulting of the method, URL construction through `buildQuery`, the header
policy, the identity merge for record bodies of JSON methods, and body
serialization (records and arrays are `JSON.stringify`ed, strings are sent
as-is, any other primitive is `JSON.stringify`ed). -/
def apiRequestBuild (cfg : Config) (path : String) (init : ApiRequestInit) :
    OutgoingRequest :=
  let method := init.method.getD .GET
  let url := cfg.apiBase ++ path ++ buildQuery init.search
  let headers :=
    [("Authorization", "Bearer " ++ cfg.jwt), ("Content-Type", "application/json")]
  let headers :=
    if JSON_METHODS method then headers ++ [("Prefer", "return=representation")]
    else headers
  let bodyToSend : Option JsValue :=
    match init.body with
    | none => none
    | some b =>
        if JSON_METHODS method && isRecord b then some (mergeUsername cfg.username b)
        else some b
  let wireBody : Option String :=
    match bodyToSend with
    | none => none
    | some (.vstr s) => some s
    | some b => some (stringify b)
  { url := url, method := method, headers := headers, body := wireBody }

/-! ## Response handling (api.ts lines 407-425) -/

/-- What `fetch` resolved to: the status, the `content-type` header (`none`
when the header is absent) and the body text read by `response.text()`. -/
structure HttpResponse where
  status : Nat
  contentType : Option String
  text : String

/-- `Response.ok`: the status is in the inclusive range 200-299. -/
def httpOk (r : HttpResponse) : Bool :=
  200 ≤ r.status && r.status < 300

/-- The message of the error thrown on a failure status (api.ts lines
411-412): the numeric status code followed by the first 200 characters of
the raw body. -/
def errorMessage (r : HttpResponse) : String :=
  "Request failed with status " ++ toString r.status ++ ": " ++
    strTake ERROR_SNIPPET_LENGTH r.text

/-- A successfully decoded response body: `null` for an empty body, the
`JSON.parse` of a body declared as JSON, or the raw text otherwise. -/
inductive ApiResult where
  | null
  | parsed (v : JsValue)
  | raw (s : String)
  deriving Repr

/-- The outcome of one `apiRequest` call: a decoded result, or the thrown
error's message. -/
inductive ApiOutcome where
  | success (v : ApiResult)
  | failure (msg : String)
  deriving Repr

/-- Does the declared content type include `application/json`?
(api.ts lines 419-420). -/
def contentTypeIsJson (r : HttpResponse) : Bool :=
  listContains (("application/json").data) ((r.contentType.getD "").data)

/-- The response-handling half of `apiRequest` (api.ts lines 408-425).
`parse` is the `JSON.parse` builtin, left uninterpreted. -/
def handleResponse (parse : String → JsValue) (r : HttpResponse) : ApiOutcome :=
  if ¬ httpOk r then .failure (errorMessage r)
  else if r.text = "" then .success .null
  else if contentTypeIsJson r then .success (.parsed (parse r.text))
  else .success (.raw r.text)

/-- One whole `apiRequest` call, given the response the network returned:
the request that was dispatched and the decoded outcome. -/
def apiRequest (parse : String → JsValue) (cfg : Config) (path : String)
    (init : ApiRequestInit) (r : HttpResponse) : OutgoingRequest × ApiOutcome :=
  (apiRequestBuild cfg path init, handleResponse parse r)

/-! ## Resource clients (api.ts lines 427-557), request side -/

/-- `updateInterview(id, patch)` (api.ts lines 435-441): the request it
dispatches. -/
def updateInterviewReq (cfg : Config) (id : Int) (patch : List (String × JsValue)) :
    OutgoingRequest :=
  apiRequestBuild cfg "/interview"
    { method := some .PATCH,
      search := some [("id", .str ("eq." ++ toString id))],
      body := some (.vobj patch) }

/-- `deleteInterview(id)` (api.ts lines 443-448): the request it
dispatches. -/
def deleteInterviewReq (cfg : Config) (id : Int) : OutgoingRequest :=
  apiRequestBuild cfg "/interview"
    { method := some .DELETE,
      search := some [("id", .str ("eq." ++ toString id))] }

/-- `updateQuestion(id, patch)` (api.ts lines 491-497). -/
def updateQuestionReq (cfg : Config) (id : Int) (patch : List (String × JsValue)) :
    OutgoingRequest :=
  apiRequestBuild cfg "/question"
    { method := some .PATCH,
      search := some [("id", .str ("eq." ++ toString id))],
      body := some (.vobj patch) }

/-- `deleteQuestion(id)` (api.ts lines 499-504). -/
def deleteQuestionReq (cfg : Config) (id : Int) : OutgoingRequest :=
  apiRequestBuild cfg "/question"
    { method := some .DELETE,
      search := some [("id", .str ("eq." ++ toString id))] }

/-- `updateApplicant(id, patch)` (api.ts lines 518-524). -/
def updateApplicantReq (cfg : Config) (id : Int) (patch : List (String × JsValue)) :
    OutgoingRequest :=
  apiRequestBuild cfg "/applicant"
    { method := some .PATCH,
      search := some [("id", .str ("eq." ++ toString id))],
      body := some (.vobj patch) }

/-- `deleteApplicant(id)` (api.ts lines 526-531). -/
def deleteApplicantReq (cfg : Config) (id : Int) : OutgoingRequest :=
  apiRequestBuild cfg "/applicant"
    { method := some .DELETE,
      search := some [("id", .str ("eq." ++ toString id))] }

/-- `updateApplicantAnswer(id, patch)` (api.ts lines 544-550). -/
def updateApplicantAnswerReq (cfg : Config) (id : Int)
    (patch : List (String × JsValue)) : OutgoingRequest :=
  apiRequestBuild cfg "/applicant_answer"
    { method := some .PATCH,
      search := some [("id", .str ("eq." ++ toString id))],
      body := some (.vobj patch) }

/-- `deleteApplicantAnswer(id)` (api.ts lines 552-557). -/
def deleteApplicantAnswerReq (cfg : Config) (id : Int) : OutgoingRequest :=
  apiRequestBuild cfg "/applicant_answer"
    { method := some .DELETE,
      search := some [("id", .str ("eq." ++ toString id))] }

/-! ## The count estimator (`fetchCount`, api.ts lines 454-481) -/

/-- `Number.parseInt(s, 10)`: skip leading whitespace, read an optional
sign, then the longest run of decimal digits; `none` models `NaN` (no
digits found). -/
def jsParseInt10 (s : String) : Option Int :=
  let cs := s.data.dropWhile isJsSpace
  let signed : Int × List Char :=
    match cs with
    | '-' :: t => (-1, t)
    | '+' :: t => (1, t)
    | t => (1, t)
  let digits := signed.2.takeWhile (fun c => 48 ≤ c.toNat && c.toNat ≤ 57)
  if digits = [] then none
  else some (signed.1 *
    (digits.foldl (fun a c => 10 * a + ((c.toNat : Int) - 48)) 0))

/-- The regular expression test `/status\s+404/.test(msg)` (api.ts line
475): somewhere in `msg`, the literal `status`, then at least one
whitespace character, then the literal `404`. -/
def matchAt404 (cs : List Char) : Bool :=
  (("status").data.isPrefixOf cs) &&
    (let rest := cs.drop 6
     decide (rest.takeWhile isJsSpace ≠ []) &&
       ("404").data.isPrefixOf (rest.dropWhile isJsSpace))

/-- `/status\s+404/.test(msg)` over the whole message. -/
def matchesStatus404 (msg : String) : Bool :=
  msg.data.tails.any matchAt404

/-- The JavaScript value that `apiRequest<CountResponse>` resolved to
(`rows` in `fetchCount`). -/
def apiResultValue : ApiResult → JsValue
  | .null => .vnull
  | .parsed v => v
  | .raw s => .vstr s

/-- `rows[0]` in JavaScript: an error for `null` (member access on `null`
throws a `TypeError`), the first element of an array (`none` =
`undefined` when empty), the `"0"` property of an object, the first
character of a string, `undefined` for other primitives. -/
def jsIndexZero : JsValue → Except String (Option JsValue)
  | .vnull => .error "Cannot read properties of null (reading '0')"
  | .varr xs => .ok xs.head?
  | .vobj fs => .ok (List.lookup "0" fs)
  | .vstr s => .ok (s.data.head?.map (fun c => .vstr ⟨[c]⟩))
  | _ => .ok none

/-- The optional chain `?.count` applied to `rows[0]`: `undefined` unless
`rows[0]` is an object with a `count` member. -/
def countMember : Option JsValue → Option JsValue
  | some (.vobj fs) => List.lookup "count" fs
  | _ => none

/-- api.ts lines 462-473: turn `rows[0]?.count` into the number returned
by `fetchCount` — parse a string count in base 10 (`NaN` becomes 0), pass
a numeric count through, anything else becomes 0. -/
def countFromField : Option JsValue → Int
  | some (.vstr s) =>
      match jsParseInt10 s with
      | none => 0
      | some k => k
  | some (.vnum n) => n
  | _ => 0

/-- The body of the `try` block of `fetchCount` applied to the value the
underlying request resolved to (api.ts lines 458-473). -/
def fetchCountCore (rows : JsValue) : Except String Int :=
  match jsIndexZero rows with
  | .error e => .error e
  | .ok first => .ok (countFromField (countMember first))

/-- The whole of `fetchCount` (api.ts lines 456-481), given the outcome of
the underlying `apiRequest` call: extraction on success, and the
`catch` clause mapping any error whose message matches `/status\s+404/`
to 0 while rethrowing every other error unchanged. -/
def fetchCount (outcome : ApiOutcome) : Except String Int :=
  match outcome with
  | .success rows =>
      match fetchCountCore (apiResultValue rows) with
      | .ok n => .ok n
      | .error e => if matchesStatus404 e then .ok 0 else .error e
  | .failure msg => if matchesStatus404 msg then .ok 0 else .error msg

/-- The object spread `{ ...search, select: 'count' }` (api.ts line 459):
`select` is overwritten in place when already present, appended
otherwise. -/
def fetchCountSearch (search : List (String × Scalar)) : List (String × Scalar) :=
  if (List.lookup "select" search).isSome then
    search.map (fun p => if p.1 = "select" then ("select", Scalar.str "count") else p)
  else search ++ [("select", Scalar.str "count")]

/-! ## Interview form validation
(`validateInterviewForm`, InterviewsPage.tsx lines 40-60) -/

/-- `InterviewFormState` (InterviewsPage.tsx lines 19-24). -/
structure InterviewFormState where
  title : String
  job_role : String
  description : String
  status : String

/-- `FormErrors` (InterviewsPage.tsx line 26): one optional message per
field; `none` models an absent key of the errors object. -/
structure FormErrors where
  title : Option String
  job_role : Option String
  description : Option String
  status : Option String
  deriving Repr, DecidableEq

/-- `validateInterviewForm` (InterviewsPage.tsx lines 40-60): each field
gets `'... is required.'` exactly when its trimmed value is empty; no other
check is performed. -/
def validateInterviewForm (state : InterviewFormState) : FormErrors :=
  { title := if strTrim state.title = "" then some ("Title is required.") else none,
    job_role :=
      if strTrim state.job_role = "" then some ("Job role is required.") else none,
    description :=
      if strTrim state.description = "" then some ("Description is required.")
      else none,
    status :=
      if strTrim state.status = "" then some ("Status is required.") else none }

/-! ## The summarization gateway

The `llm-service` implementation is not part of the repository sources, so
this component is modelled from the specification (§4.5, §6, §7 of the spec
and `docs/GenAI_API_Contract.md`). -/

/-- Modelled from the spec: process-wide gateway configuration — the
optional `GENAI_API_KEY` live-generation credential (`none` = unset) and
the identity established by the caller's bearer credential. -/
structure GatewayConfig where
  genaiApiKey : Option String
  authUsername : String

/-- Modelled from the spec: the `applicantName` record of a
`SummaryRequest` (`docs/GenAI_API_Contract.md`). -/
structure NameParts where
  title : String
  first : String
  last : String

/-- Modelled from the spec: one per-question answer record of a
`SummaryRequest` (question id, question text, nullable written answer,
nullable transcript, optional non-negative integer duration). -/
structure AnswerRecord where
  questionId : Int
  question : String
  answer : Option String
  transcript : Option String
  durationSeconds : Option Int

/-- Modelled from the spec: the inbound `SummaryRequest` (§3 of the spec,
`docs/GenAI_API_Contract.md`). -/
structure SummaryRequest where
  username : String
  applicantId : Int
  interviewId : Int
  applicantName : NameParts
  jobRole : String
  answers : List AnswerRecord
  skillsSummary : Option String

/-- Modelled from the spec: the `SummaryResponse` envelope (§3 of the
spec). -/
structure SummaryResponse where
  applicantId : Int
  interviewId : Int
  generatedAt : String
  overview : String
  strengths : List String
  risks : List String
  recommendation : String
  isPlaceholder : Bool

/-- Modelled from the spec: what the gateway sends back — HTTP 200 with a
summary envelope, or an error envelope with a status, a machine-readable
code, a message and field-level details (path, message). -/
inductive GatewayResult where
  | success (status : Nat) (summary : SummaryResponse)
  | failure (status : Nat) (code : String) (message : String)
      (details : List (List String × String))

/-- Modelled from the spec: value-level validation of the typed request
(negative duration, non-positive identity; missing fields and wrong types
cannot occur in the typed embedding), with one detail per violation
carrying the offending field path. -/
def durationViolations (i : Nat) : List AnswerRecord → List (List String × String)
  | [] => []
  | a :: rest =>
      (match a.durationSeconds with
       | some d =>
           if d < 0 then
             [(["answers", toString i, "durationSeconds"], "Expected integer >= 0")]
           else []
       | none => []) ++ durationViolations (i + 1) rest

/-- Modelled from the spec: every validation violation of a
`SummaryRequest`, in field order. -/
def validationErrors (r : SummaryRequest) : List (List String × String) :=
  (if r.applicantId ≤ 0 then
    [(["applicantId"], "Expected positive integer")] else []) ++
  (if r.interviewId ≤ 0 then
    [(["interviewId"], "Expected positive integer")] else []) ++
  durationViolations 0 r.answers

/-- A wall-clock reading, broken into the UTC fields that
`Date.prototype.toISOString` renders. -/
structure Clock where
  year : Nat
  month : Nat
  day : Nat
  hour : Nat
  minute : Nat
  second : Nat
  ms : Nat

/-- The fields of a real UTC wall-clock reading are in range (four-digit
year, 1-12 month, 1-31 day, and so on). -/
def validClock (c : Clock) : Prop :=
  c.year ≤ 9999 ∧ 1 ≤ c.month ∧ c.month ≤ 12 ∧ 1 ≤ c.day ∧ c.day ≤ 31 ∧
    c.hour ≤ 23 ∧ c.minute ≤ 59 ∧ c.second ≤ 59 ∧ c.ms ≤ 999

/-- The decimal digit character for `n % 10`. -/
def digitChar (n : Nat) : Char :=
  ("0123456789").data.getD (n % 10) ('0')

/-- Modelled from the spec: the `YYYY-MM-DDTHH:mm:ss.sssZ` rendering of a
UTC clock reading, as produced by `Date.prototype.toISOString`. -/
def isoUtc (c : Clock) : String :=
  ⟨[digitChar (c.year / 1000), digitChar (c.year / 100), digitChar (c.year / 10),
    digitChar c.year, '-', digitChar (c.month / 10), digitChar c.month, '-',
    digitChar (c.day / 10), digitChar c.day, 'T', digitChar (c.hour / 10),
    digitChar c.hour, ':', digitChar (c.minute / 10), digitChar c.minute, ':',
    digitChar (c.second / 10), digitChar c.second, '.', digitChar (c.ms / 100),
    digitChar (c.ms / 10), digitChar c.ms, 'Z']⟩

/-- Is `c` a decimal digit character? -/
def isDigitChar (c : Char) : Bool :=
  decide (48 ≤ c.toNat ∧ c.toNat ≤ 57)

/-- Numeric value of a decimal digit character. -/
def digitVal (c : Char) : Nat :=
  c.toNat - 48

/-- The character-level check behind `isIso8601Utc`: exactly the shape
`YYYY-MM-DDTHH:mm:ss.sssZ` with correct separators, digits in every numeric
position, and in-range month, day, hour, minute and second fields. -/
def isIsoChars : List Char → Bool
  | [y1, y2, y3, y4, h1, m1, m2, h2, d1, d2, t, hh1, hh2, c1, mi1, mi2, c2,
     s1, s2, dot, f1, f2, f3, z] =>
      (h1 = '-' : Bool) && (h2 = '-' : Bool) && (t = 'T' : Bool) &&
        (c1 = ':' : Bool) && (c2 = ':' : Bool) && (dot = '.' : Bool) &&
        (z = 'Z' : Bool) &&
        isDigitChar y1 && isDigitChar y2 && isDigitChar y3 && isDigitChar y4 &&
        isDigitChar m1 && isDigitChar m2 && isDigitChar d1 && isDigitChar d2 &&
        isDigitChar hh1 && isDigitChar hh2 && isDigitChar mi1 && isDigitChar mi2 &&
        isDigitChar s1 && isDigitChar s2 &&
        isDigitChar f1 && isDigitChar f2 && isDigitChar f3 &&
        decide (1 ≤ digitVal m1 * 10 + digitVal m2) &&
        decide (digitVal m1 * 10 + digitVal m2 ≤ 12) &&
        decide (1 ≤ digitVal d1 * 10 + digitVal d2) &&
        decide (digitVal d1 * 10 + digitVal d2 ≤ 31) &&
        decide (digitVal hh1 * 10 + digitVal hh2 ≤ 23) &&
        decide (digitVal mi1 * 10 + digitVal mi2 ≤ 59) &&
        decide (digitVal s1 * 10 + digitVal s2 ≤ 59)
  | _ => false

/-- A valid ISO-8601 UTC timestamp in the exact shape
`YYYY-MM-DDTHH:mm:ss.sssZ`. -/
def isIso8601Utc (s : String) : Bool :=
  isIsoChars s.data

/-- Modelled from the spec: the fixed placeholder overview template — it
explicitly states that no live summary could be produced and names the
missing configuration. -/
def placeholderOverview : String :=
  "No live GenAI summary could be produced because the GENAI_API_KEY " ++
    "configuration is missing; this overview comes from fixed placeholder " ++
    "template text."

/-- Modelled from the spec: the fixed placeholder recommendation
template. -/
def placeholderRecommendation : String :=
  "Review the recorded answers manually and configure GENAI_API_KEY to " ++
    "enable live GenAI summaries; this recommendation is placeholder text."

/-- Modelled from the spec: the placeholder strengths list (always at least
one entry, per the output guarantee of §4.5). -/
def placeholderStrengths : List String :=
  ["Interview answers were recorded and are available for manual review."]

/-- Modelled from the spec: the deterministic placeholder summary envelope
(`isPlaceholder = true`, synthetic UTC timestamp, empty risks). -/
def placeholderSummary (now : Clock) (r : SummaryRequest) : SummaryResponse :=
  { applicantId := r.applicantId,
    interviewId := r.interviewId,
    generatedAt := isoUtc now,
    overview := placeholderOverview,
    strengths := placeholderStrengths,
    risks := [],
    recommendation := placeholderRecommendation,
    isPlaceholder := true }

/-- Modelled from the spec: what the external generation provider did on a
live call (only reachable when a key is configured). -/
inductive ProviderOutcome where
  | ok (overview : String) (strengths : List String) (risks : List String)
      (recommendation : String)
  | rateLimited
  | upstreamFailure
  | unavailable

/-- Modelled from the spec: the whole summarization gateway
(`POST /api/summarize-applicant`) — validation, the identity check, then
the placeholder branch when `GENAI_API_KEY` is unset or empty, or the live
branch with provider failures mapped to the fixed error taxonomy. -/
def summarizeApplicant (cfg : GatewayConfig) (now : Clock)
    (provider : ProviderOutcome) (req : SummaryRequest) : GatewayResult :=
  if validationErrors req ≠ [] then
    .failure 400 "VALIDATION_ERROR" "Request body failed schema validation"
      (validationErrors req)
  else if req.username ≠ cfg.authUsername then
    .failure 403 "FORBIDDEN"
      "Declared username does not match the authenticated identity" []
  else if cfg.genaiApiKey = none ∨ cfg.genaiApiKey = some "" then
    .success 200 (placeholderSummary now req)
  else
    match provider with
    | .ok ov sts rks rec =>
        .success 200
          { applicantId := req.applicantId,
            interviewId := req.interviewId,
            generatedAt := isoUtc now,
            overview := ov,
            strengths :=
              if sts = [] then ["No specific strengths were identified."] else sts,
            risks := rks,
            recommendation := rec,
            isPlaceholder := false }
    | .rateLimited =>
        .failure 429 "RATE_LIMITED" "The generation provider signalled throttling" []
    | .upstreamFailure =>
        .failure 500 "GENAI_UPSTREAM" "The generation provider returned an error" []
    | .unavailable =>
        .failure 503 "SERVICE_UNAVAILABLE" "The generation subsystem is unreachable" []

/-! ## Lemmas: percent-encoding round-trip -/

/-- Every Unicode scalar value is below `0x110000`. -/
theorem char_toNat_lt (c : Char) : c.toNat < 1114112 := by
  rcases c with ⟨v, h⟩
  simp only [Char.toNat]
  rcases h with h | ⟨h1, h2⟩ <;> omega

/-- UTF-8 bytes of a scalar value are bytes. -/
theorem utf8EncodeChar_lt (n : Nat) (h : n < 1114112) :
    ∀ b ∈ utf8EncodeChar n, b < 256 := by
  intro b hb
  unfold utf8EncodeChar at hb
  split_ifs at hb <;>
    simp only [List.mem_cons, List.not_mem_nil, or_false] at hb <;> omega

/-- Decoding undoes the UTF-8 encoding of one character, whatever bytes
follow. -/
theorem utf8DecodeFold_encode (c : Char) (t : List Nat) :
    utf8DecodeFold (utf8EncodeChar c.toNat ++ t) 0 0 =
      c :: utf8DecodeFold t 0 0 := by
  have hv : c.toNat < 1114112 := char_toNat_lt c
  have hofn : Char.ofNat c.toNat = c := Char.ofNat_toNat c
  set n := c.toNat with hn
  rcases Nat.lt_or_ge n 128 with h1 | h1
  · have he : utf8EncodeChar n = [n] := by rw [utf8EncodeChar, if_pos h1]
    rw [he, List.cons_append, List.nil_append, utf8DecodeFold]
    rw [if_pos h1, hofn]
  · rcases Nat.lt_or_ge n 2048 with h2 | h2
    · have he : utf8EncodeChar n = [192 + n / 64, 128 + n % 64] := by
        rw [utf8EncodeChar, if_neg (by omega), if_pos h2]
      rw [he, List.cons_append, List.cons_append, List.nil_append,
        utf8DecodeFold]
      rw [if_neg (by omega), if_pos (by omega), utf8DecodeFold]
      have harg : (192 + n / 64 - 192) * 64 + (128 + n % 64 - 128) = n := by
        omega
      rw [harg, hofn]
    · rcases Nat.lt_or_ge n 65536 with h3 | h3
      · have he : utf8EncodeChar n =
            [224 + n / 4096, 128 + n / 64 % 64, 128 + n % 64] := by
          rw [utf8EncodeChar, if_neg (by omega), if_neg (by omega), if_pos h3]
        rw [he, List.cons_append, List.cons_append, List.cons_append,
          List.nil_append, utf8DecodeFold]
        rw [if_neg (by omega), if_neg (by omega), if_pos (by omega)]
        rw [show (2 : Nat) = 0 + 2 from rfl, utf8DecodeFold, utf8DecodeFold]
        have harg : ((224 + n / 4096 - 224) * 64 +
            (128 + n / 64 % 64 - 128)) * 64 + (128 + n % 64 - 128) = n := by
          omega
        rw [harg, hofn]
      · have he : utf8EncodeChar n =
            [240 + n / 262144, 128 + n / 4096 % 64, 128 + n / 64 % 64,
              128 + n % 64] := by
          rw [utf8EncodeChar, if_neg (by omega), if_neg (by omega),
            if_neg (by omega)]
        rw [he, List.cons_append, List.cons_append, List.cons_append,
          List.cons_append, List.nil_append, utf8DecodeFold]
        rw [if_neg (by omega), if_neg (by omega), if_neg (by omega)]
        rw [show (3 : Nat) = 1 + 2 from rfl, utf8DecodeFold]
        rw [show (1 + 1 : Nat) = 0 + 2 from rfl, utf8DecodeFold, utf8DecodeFold]
        have harg : (((240 + n / 262144 - 240) * 64 +
            (128 + n / 4096 % 64 - 128)) * 64 +
            (128 + n / 64 % 64 - 128)) * 64 + (128 + n % 64 - 128) = n := by
          omega
        rw [harg, hofn]

/-- Decoding undoes the UTF-8 encoding of a whole character list. -/
theorem utf8DecodeFold_flat (cs : List Char) (t : List Nat) :
    utf8DecodeFold (cs.flatMap (fun c => utf8EncodeChar c.toNat) ++ t) 0 0 =
      cs ++ utf8DecodeFold t 0 0 := by
  induction cs with
  | nil => simp
  | cons c cs ih =>
      rw [List.flatMap_cons, List.append_assoc, utf8DecodeFold_encode, ih,
        List.cons_append]

/-- `hexVal` inverts `hexDigitChar` on nibbles. -/
theorem hexVal_hexDigitChar (m : Nat) (h : m < 16) :
    hexVal (hexDigitChar m) = m := by
  interval_cases m <;> decide

/-- Byte-decoding undoes one `%XY` escape, whatever characters follow. -/
theorem percentDecodeFold_percentByte (b : Nat) (hb : b < 256) (t : List Char) :
    percentDecodeFold (percentByte b ++ t) 0 0 =
      b :: percentDecodeFold t 0 0 := by
  have h1 : hexVal (hexDigitChar (b / 16)) = b / 16 :=
    hexVal_hexDigitChar _ (by omega)
  have h2 : hexVal (hexDigitChar (b % 16)) = b % 16 :=
    hexVal_hexDigitChar _ (by omega)
  show percentDecodeFold
      ('%' :: hexDigitChar (b / 16) :: hexDigitChar (b % 16) :: t) 0 0 = _
  rw [percentDecodeFold, if_pos rfl, percentDecodeFold,
    show (2 : Nat) = 0 + 2 from rfl, percentDecodeFold, h1, h2]
  have harg : 16 * (b / 16) + b % 16 = b := by omega
  rw [harg]

/-- Byte-decoding undoes a run of `%XY` escapes. -/
theorem percentDecodeFold_escapes (bs : List Nat) (hb : ∀ b ∈ bs, b < 256)
    (t : List Char) :
    percentDecodeFold (bs.flatMap percentByte ++ t) 0 0 =
      bs ++ percentDecodeFold t 0 0 := by
  induction bs with
  | nil => simp
  | cons b rest ih =>
      rw [List.flatMap_cons, List.append_assoc,
        percentDecodeFold_percentByte b (hb b (by simp)) _,
        ih (fun x hx => hb x (by simp [hx])), List.cons_append]

/-- Byte-decoding an `encodeURIComponent` output recovers exactly the UTF-8
bytes of the original characters. -/
theorem percentDecodeFold_encode (cs : List Char) :
    percentDecodeFold (encodeURIComponentChars cs) 0 0 =
      cs.flatMap (fun c => utf8EncodeChar c.toNat) := by
  induction cs with
  | nil => rfl
  | cons c cs ih =>
      rw [encodeURIComponentChars]
      by_cases h : isUnreservedURIChar c
      · have hne : ¬ c = '%' := by
          intro hc
          subst hc
          exact absurd h (by decide)
        rw [if_pos h, List.cons_append, List.nil_append, percentDecodeFold,
          if_neg hne, ih, List.flatMap_cons]
      · rw [if_neg h,
          percentDecodeFold_escapes _ (utf8EncodeChar_lt c.toNat (char_toNat_lt c)) _,
          ih, List.flatMap_cons]

/-- `decodeURIComponent` undoes `encodeURIComponent`. -/
theorem decodeComponentChars_encode (cs : List Char) :
    decodeComponentChars (encodeURIComponentChars cs) = cs := by
  rw [decodeComponentChars, percentDecodeBytes, utf8DecodeBytes,
    percentDecodeFold_encode]
  have h := utf8DecodeFold_flat cs []
  rw [List.append_nil] at h
  rw [h, utf8DecodeFold, List.append_nil]

/-- Hexadecimal digit characters are never `&` (38) or `=` (61). -/
theorem hexDigitChar_not_special (m : Nat) :
    (hexDigitChar m).toNat ≠ 38 ∧ (hexDigitChar m).toNat ≠ 61 := by
  by_cases h : m < 16
  · interval_cases m <;> decide
  · rw [hexDigitChar, List.getD_eq_default _ _
      (by have hlen : ("0123456789ABCDEF").data.length = 16 := rfl; omega)]
    decide

/-- No character of an `encodeURIComponent` output is `&` (38) or `=`
(61), so the separators inserted by `buildQuery` can be split off again. -/
theorem encode_no_special (cs : List Char) :
    ∀ x ∈ encodeURIComponentChars cs, x.toNat ≠ 38 ∧ x.toNat ≠ 61 := by
  induction cs with
  | nil => simp [encodeURIComponentChars]
  | cons c cs ih =>
      intro x hx
      rw [encodeURIComponentChars] at hx
      rcases List.mem_append.1 hx with hx | hx
      · by_cases h : isUnreservedURIChar c
        · rw [if_pos h] at hx
          simp only [List.mem_singleton] at hx
          subst hx
          simp only [isUnreservedURIChar, Bool.or_eq_true, Bool.and_eq_true,
            decide_eq_true_eq] at h
          omega
        · rw [if_neg h] at hx
          rcases List.mem_flatMap.1 hx with ⟨b, _, hxb⟩
          simp only [percentByte, List.mem_cons, List.not_mem_nil,
            or_false] at hxb
          rcases hxb with hxb | hxb | hxb
          · subst hxb; decide
          · subst hxb; exact hexDigitChar_not_special _
          · subst hxb; exact hexDigitChar_not_special _
      · exact ih x hx

/-! ## Lemmas: splitting the query string back into entries -/

/-- A run with no separator stays in one piece. -/
theorem splitAmp_no_sep (cs : List Char) (h : ∀ c ∈ cs, c ≠ '&') :
    splitAmp cs = [cs] := by
  induction cs with
  | nil => rfl
  | cons c cs ih =>
      rw [splitAmp, if_neg (h c (by simp)), ih (fun x hx => h x (by simp [hx]))]

/-- Splitting takes off the first separator-free run. -/
theorem splitAmp_sep (a : List Char) (h : ∀ c ∈ a, c ≠ '&') (rest : List Char) :
    splitAmp (a ++ '&' :: rest) = a :: splitAmp rest := by
  induction a with
  | nil => rw [List.nil_append, splitAmp, if_pos rfl]
  | cons c a ih =>
      rw [List.cons_append, splitAmp, if_neg (h c (by simp)),
        ih (fun x hx => h x (by simp [hx]))]

/-- Splitting a `key=value` entry at the first `=` recovers the key and the
value when the key holds no `=`. -/
theorem splitKV_eq (k : List Char) (h : ∀ c ∈ k, c ≠ '=') (v : List Char) :
    splitKV (k ++ '=' :: v) = (k, v) := by
  induction k with
  | nil => rw [List.nil_append, splitKV, if_pos rfl]
  | cons c k ih =>
      rw [List.cons_append, splitKV, if_neg (h c (by simp)),
        ih (fun x hx => h x (by simp [hx]))]

/-- The character list of one encoded `key=value` entry. -/
theorem encPair_data (p : String × Scalar) :
    (encPair p).data =
      encodeURIComponentChars p.1.data ++
        ('=' :: encodeURIComponentChars (scalarToString p.2).data) := by
  rw [encPair, String.data_append, String.data_append, List.append_assoc]
  rfl

/-- No character of an encoded entry is the `&` separator. -/
theorem encPair_no_amp (p : String × Scalar) :
    ∀ c ∈ (encPair p).data, c ≠ '&' := by
  rw [encPair_data]
  intro c hc heq
  subst heq
  rcases List.mem_append.1 hc with h | h
  · exact (encode_no_special _ _ h).1 rfl
  · rcases List.mem_cons.1 h with h | h
    · exact absurd h (by decide)
    · exact (encode_no_special _ _ h).1 rfl

/-- An encoded entry is never empty (it holds its `=`). -/
theorem encPair_ne_nil (p : String × Scalar) : (encPair p).data ≠ [] := by
  rw [encPair_data]
  simp

/-- Splitting one encoded entry at its `=` recovers the two encoded
components. -/
theorem splitKV_encPair (p : String × Scalar) :
    splitKV (encPair p).data =
      (encodeURIComponentChars p.1.data,
        encodeURIComponentChars (scalarToString p.2).data) := by
  rw [encPair_data]
  exact splitKV_eq _
    (fun c hc heq => by
      subst heq
      exact (encode_no_special _ _ hc).2 rfl) _

/-- Splitting the `&`-joined entries recovers every encoded entry. -/
theorem splitAmp_joinAmp (ps : List (String × Scalar)) (hne : ps ≠ []) :
    splitAmp (joinAmp (ps.map encPair)).data =
      ps.map (fun p => (encPair p).data) := by
  induction ps with
  | nil => exact absurd rfl hne
  | cons p ps ih =>
      cases ps with
      | nil =>
          rw [List.map_cons, List.map_nil, joinAmp, List.map_cons, List.map_nil]
          exact splitAmp_no_sep _ (encPair_no_amp p)
      | cons q qs =>
          rw [List.map_cons, List.map_cons, joinAmp, String.data_append,
            String.data_append, List.append_assoc]
          show splitAmp ((encPair p).data ++
            ('&' :: (joinAmp (encPair q :: qs.map encPair)).data)) = _
          rw [splitAmp_sep _ (encPair_no_amp p) _]
          rw [show encPair q :: qs.map encPair = (q :: qs).map encPair from rfl,
            ih (by simp)]
          rfl

/-- The `&`-join of at least one encoded entry is not the empty string. -/
theorem joinAmp_encPair_ne_nil (p : String × Scalar) (ps : List (String × Scalar)) :
    (joinAmp ((p :: ps).map encPair)).data ≠ [] := by
  cases ps with
  | nil =>
      rw [List.map_cons, List.map_nil, joinAmp]
      exact encPair_ne_nil p
  | cons q qs =>
      rw [List.map_cons, List.map_cons, joinAmp, String.data_append,
        String.data_append]
      intro h
      rcases List.append_eq_nil.1 h with ⟨h1, _⟩
      rcases List.append_eq_nil.1 h1 with ⟨h2, _⟩
      exact encPair_ne_nil p h2

/-- Decoding the query string built from a non-empty parameter list
recovers every key with the string form of its value, in order. -/
theorem parseQuery_buildQuery (ps : List (String × Scalar)) (hne : ps ≠ []) :
    parseQuery (strDrop 1 (buildQuery (some ps))) =
      ps.map (fun p => (p.1, scalarToString p.2)) := by
  obtain ⟨p, ps', rfl⟩ := List.exists_cons_of_ne_nil hne
  have hdrop : strDrop 1 (buildQuery (some (p :: ps'))) =
      joinAmp ((p :: ps').map encPair) := by
    rw [strDrop, buildQuery, String.data_append]
    rfl
  rw [hdrop, parseQuery, if_neg (joinAmp_encPair_ne_nil p ps'),
    splitAmp_joinAmp _ (by simp), List.map_map]
  refine List.map_congr_left (fun a _ => ?_)
  simp only [Function.comp_apply, splitKV_encPair, decodeComponentChars_encode]

/-- C5: for every non-empty mapping of parameter names to scalar values the
Query Encoder's output starts with `?`, and decoding each encoded
`key=value` pair yields exactly the original key and the original value's
string form; the empty or absent mapping produces the empty string. -/
theorem buildQuery_roundtrip :
    buildQuery none = "" ∧ buildQuery (some []) = "" ∧
    ∀ ps : List (String × Scalar), ps ≠ [] →
      (buildQuery (some ps)).data.head? = some '?' ∧
      parseQuery (strDrop 1 (buildQuery (some ps))) =
        ps.map (fun p => (p.1, scalarToString p.2)) := by
  refine ⟨rfl, rfl, fun ps hne => ⟨?_, parseQuery_buildQuery ps hne⟩⟩
  obtain ⟨p, ps', rfl⟩ := List.exists_cons_of_ne_nil hne
  rw [buildQuery, String.data_append]
  rfl

/-- C5, witness: the round-trip theorem applied to the concrete filter
mapping exercised by the repository's own `buildQuery` test. -/
theorem buildQuery_roundtrip_witness :
    ([("order", Scalar.str ("id.desc")), ("limit", Scalar.num 10),
        ("offset", Scalar.num 0), ("title", Scalar.str ("ilike.*dev*"))] ≠
      ([] : List (String × Scalar))) ∧
    (buildQuery (some [("order", Scalar.str ("id.desc")), ("limit", Scalar.num 10),
        ("offset", Scalar.num 0),
        ("title", Scalar.str ("ilike.*dev*"))])).data.head? = some '?' ∧
    parseQuery (strDrop 1 (buildQuery
        (some [("order", Scalar.str ("id.desc")), ("limit", Scalar.num 10),
          ("offset", Scalar.num 0), ("title", Scalar.str ("ilike.*dev*"))]))) =
      [("order", "id.desc"), ("limit", "10"), ("offset", "0"),
        ("title", "ilike.*dev*")] := by
  have h := buildQuery_roundtrip.2.2
    [("order", Scalar.str ("id.desc")), ("limit", Scalar.num 10),
      ("offset", Scalar.num 0), ("title", Scalar.str ("ilike.*dev*"))]
    (by decide)
  refine ⟨by decide, h.1, ?_⟩
  rw [h.2]
  rfl

/-! ## Lemmas: the dispatcher -/

/-- The merged body always exposes a `username` member: the caller's value
when one was supplied, the configured identity otherwise. -/
theorem lookup_mergedFields (u : String) (fs : List (String × JsValue)) :
    List.lookup "username" (mergedFields u fs) =
      some ((List.lookup "username" fs).getD (.vstr u)) := by
  rw [mergedFields]
  simp [List.lookup]

/-- For a JSON method (POST/PATCH) and a record body, the dispatched wire
body is the serialization of the identity-merged record. -/
theorem apiRequestBuild_body_json (cfg : Config) (path : String)
    (m : HttpMethod) (s : Option (List (String × Scalar)))
    (fs : List (String × JsValue)) (hm : JSON_METHODS m = true) :
    (apiRequestBuild cfg path
        { method := some m, search := s, body := some (.vobj fs) }).body =
      some (stringify (.vobj (mergedFields cfg.username fs))) := by
  simp [apiRequestBuild, hm, isRecord, mergeUsername]

/-- A needle placed between two runs is found by `listContains`. -/
theorem listContains_append (n a b : List Char) :
    listContains n (a ++ (n ++ b)) = true := by
  rw [listContains, List.any_eq_true]
  refine ⟨n ++ b, ?_, ?_⟩
  · rw [List.mem_tails]
    exact ⟨a, rfl⟩
  · rw [List.isPrefixOf_iff_prefix]
    exact ⟨b, rfl⟩

/-! ## Claim C1 -/

/-- C1: for every POST or PATCH dispatch whose body is a flat field/value
record, the transmitted body is the serialized identity-merged record; when
the caller omitted the identity field the merged record carries the
configured identity, and when the caller supplied any identity value that
value is preserved unchanged. -/
theorem apiRequest_identity_merge (cfg : Config) (path : String)
    (m : HttpMethod) (s : Option (List (String × Scalar)))
    (fs : List (String × JsValue)) (hm : JSON_METHODS m = true) :
    (apiRequestBuild cfg path
        { method := some m, search := s, body := some (.vobj fs) }).body =
      some (stringify (.vobj (mergedFields cfg.username fs))) ∧
    (List.lookup "username" fs = none →
      List.lookup "username" (mergedFields cfg.username fs) =
        some (.vstr cfg.username)) ∧
    (∀ v, List.lookup "username" fs = some v →
      List.lookup "username" (mergedFields cfg.username fs) = some v) := by
  refine ⟨apiRequestBuild_body_json cfg path m s fs hm,
    fun h => ?_, fun v h => ?_⟩
  · rw [lookup_mergedFields, h]
    rfl
  · rw [lookup_mergedFields, h]
    rfl

/-- C1, witness: the identity-merge theorem applied to the two POST bodies
exercised by the repository's own tests (one without a `username`, one with
a caller-supplied `username`). -/
theorem apiRequest_identity_merge_witness :
    JSON_METHODS .POST = true ∧
    List.lookup "username"
        (mergedFields ("s4000000") [("interview_id", JsValue.vnum 5)]) =
      some (JsValue.vstr ("s4000000")) ∧
    List.lookup "username"
        (mergedFields ("s4000000")
          [("interview_id", JsValue.vnum 5),
            ("username", JsValue.vstr ("custom-user"))]) =
      some (JsValue.vstr ("custom-user")) := by
  have h1 := apiRequest_identity_merge ⟨"http://api", "jwt", "s4000000"⟩
    "/applicant" .POST none [("interview_id", JsValue.vnum 5)] rfl
  have h2 := apiRequest_identity_merge ⟨"http://api", "jwt", "s4000000"⟩
    "/applicant" .POST none
    [("interview_id", JsValue.vnum 5), ("username", JsValue.vstr ("custom-user"))]
    rfl
  exact ⟨rfl, h1.2.1 rfl, h2.2.2 _ rfl⟩

/-! ## Claim C8 (corrected) -/

/-- C8, counterexample: a DELETE dispatch with a flat record body transmits
the body unmerged — the serialized record has no identity field, so the
claim's "every mutating dispatch (POST, PATCH, or DELETE)" fails for
DELETE. -/
theorem delete_body_not_merged_cex :
    (apiRequestBuild ⟨"http://api", "jwt", "s4000000"⟩ "/applicant"
        { method := some .DELETE, search := none,
          body := some (.vobj [("interview_id", .vnum 5)]) }).body =
      some (stringify (.vobj [("interview_id", JsValue.vnum 5)])) ∧
    List.lookup "username" [("interview_id", JsValue.vnum 5)] = none := by
  exact ⟨rfl, rfl⟩

/-- C8 as amended: only POST and PATCH dispatches with flat record bodies
have the caller's identity merged under the fixed `username` field
(injected when absent, untouched when present); a DELETE dispatch with a
record body transmits the record unchanged, with no identity merge. -/
theorem mutating_identity_merge_amended (cfg : Config) (path : String)
    (s : Option (List (String × Scalar))) (fs : List (String × JsValue)) :
    (∀ m, JSON_METHODS m = true →
      (apiRequestBuild cfg path
          { method := some m, search := s, body := some (.vobj fs) }).body =
        some (stringify (.vobj (mergedFields cfg.username fs))) ∧
      List.lookup "username" (mergedFields cfg.username fs) =
        some ((List.lookup "username" fs).getD (.vstr cfg.username))) ∧
    (apiRequestBuild cfg path
        { method := some .DELETE, search := s, body := some (.vobj fs) }).body =
      some (stringify (.vobj fs)) := by
  exact ⟨fun m hm => ⟨apiRequestBuild_body_json cfg path m s fs hm,
    lookup_mergedFields cfg.username fs⟩, rfl⟩

/-- C8, witness: the amended theorem applied to a concrete PATCH body and
the same body sent by DELETE. -/
theorem mutating_identity_merge_amended_witness :
    JSON_METHODS .PATCH = true ∧
    (apiRequestBuild ⟨"http://api", "jwt", "s4000000"⟩ "/question"
        { method := some .PATCH, search := none,
          body := some (.vobj [("difficulty", JsValue.vstr ("Easy"))]) }).body =
      some (stringify (.vobj (mergedFields ("s4000000")
        [("difficulty", JsValue.vstr ("Easy"))]))) ∧
    (apiRequestBuild ⟨"http://api", "jwt", "s4000000"⟩ "/question"
        { method := some .DELETE, search := none,
          body := some (.vobj [("difficulty", JsValue.vstr ("Easy"))]) }).body =
      some (stringify (.vobj [("difficulty", JsValue.vstr ("Easy"))])) := by
  have h := mutating_identity_merge_amended ⟨"http://api", "jwt", "s4000000"⟩
    "/question" none [("difficulty", JsValue.vstr ("Easy"))]
  exact ⟨rfl, (h.1 .PATCH rfl).1, h.2⟩

/-! ## Claim C3 -/

/-- C3: for every dispatch whose response has a non-success status the
dispatcher yields a failure (never a decoded success, so nothing is
parsed), and the error message contains the numeric status code followed by
at most the first 200 characters of the raw body. -/
theorem apiRequest_error_response (parse : String → JsValue)
    (r : HttpResponse) (h : httpOk r = false) :
    handleResponse parse r = .failure (errorMessage r) ∧
    (∀ v, handleResponse parse r ≠ .success v) ∧
    listContains ((toString r.status).data) ((errorMessage r).data) = true ∧
    errorMessage r =
      "Request failed with status " ++ toString r.status ++ ": " ++
        strTake ERROR_SNIPPET_LENGTH r.text ∧
    (strTake ERROR_SNIPPET_LENGTH r.text).data.length ≤ 200 := by
  have hfail : handleResponse parse r = .failure (errorMessage r) := by
    simp [handleResponse, h]
  have hnosucc : ∀ v, handleResponse parse r ≠ .success v := by
    intro v hv
    rw [hfail] at hv
    cases hv
  refine ⟨hfail, hnosucc, ?_, rfl, ?_⟩
  · have hdata : (errorMessage r).data =
        ("Request failed with status ").data ++
          ((toString r.status).data ++
            ((": ").data ++ (strTake ERROR_SNIPPET_LENGTH r.text).data)) := by
      rw [errorMessage, String.data_append, String.data_append,
        String.data_append, List.append_assoc, List.append_assoc]
    rw [hdata]
    exact listContains_append _ _ _
  · rw [strTake]
    exact List.length_take_le _ _

/-- C3, witness: the error theorem applied to a concrete 400 response. -/
theorem apiRequest_error_response_witness :
    httpOk ⟨400, some ("application/json"), "bad request"⟩ = false ∧
    handleResponse (fun _ => JsValue.vnull)
        ⟨400, some ("application/json"), "bad request"⟩ =
      .failure (errorMessage ⟨400, some ("application/json"), "bad request"⟩) ∧
    listContains (("400").data)
      ((errorMessage ⟨400, some ("application/json"), "bad request"⟩).data) =
        true := by
  have h := apiRequest_error_response (fun _ => JsValue.vnull)
    ⟨400, some ("application/json"), "bad request"⟩ (by decide)
  exact ⟨by decide, h.1, h.2.2.1⟩

/-! ## Claim C6 -/

/-- C6: for every dispatch whose response has a success status, an empty
body yields the null result, a non-empty body whose declared content type
includes `application/json` is parsed into a value, and any other declared
content type is returned as the raw text unchanged. -/
theorem apiRequest_success_decoding (parse : String → JsValue)
    (r : HttpResponse) (h : httpOk r = true) :
    (r.text = "" → handleResponse parse r = .success .null) ∧
    (r.text ≠ "" → contentTypeIsJson r = true →
      handleResponse parse r = .success (.parsed (parse r.text))) ∧
    (r.text ≠ "" → contentTypeIsJson r = false →
      handleResponse parse r = .success (.raw r.text)) := by
  refine ⟨fun he => ?_, fun he hj => ?_, fun he hj => ?_⟩
  · simp [handleResponse, h, he]
  · simp [handleResponse, h, he, hj]
  · simp [handleResponse, h, he, hj]

/-- C6, witness: the success-decoding theorem applied to an empty 200
response, a JSON 200 response and a plain-text 200 response. -/
theorem apiRequest_success_decoding_witness :
    handleResponse (fun _ => JsValue.varr [])
        ⟨200, some ("application/json"), ""⟩ = .success .null ∧
    handleResponse (fun _ => JsValue.varr [])
        ⟨200, some ("application/json"), "[]"⟩ =
      .success (.parsed (JsValue.varr [])) ∧
    handleResponse (fun _ => JsValue.varr [])
        ⟨200, some ("text/csv"), "a,b"⟩ = .success (.raw "a,b") := by
  refine ⟨(apiRequest_success_decoding _ _ (by decide)).1 rfl,
    (apiRequest_success_decoding _ _ (by decide)).2.1 (by decide) (by decide),
    (apiRequest_success_decoding _ _ (by decide)).2.2 (by decide) (by decide)⟩

/-! ## Claim C7 -/

/-- C7: for every resource client, `update(id, patch)` dispatches a PATCH
whose search parameters are exactly the equality filter `id=eq.<id>` (shown
by decoding the query back) with the partial record as body (identity
merge per the dispatcher), and `delete(id)` dispatches a DELETE scoped by
the same equality filter, carries no body, and yields the null result on
the backend's empty reply. -/
theorem resource_update_delete (cfg : Config) (id : Int)
    (patch : List (String × JsValue)) :
    parseQuery (strDrop 1
        (buildQuery (some [("id", Scalar.str ("eq." ++ toString id))]))) =
      [("id", "eq." ++ toString id)] ∧
    (∀ (parse : String → JsValue) (r : HttpResponse),
      httpOk r = true → r.text = "" → handleResponse parse r = .success .null) ∧
    (updateInterviewReq cfg id patch).method = .PATCH ∧
    (updateInterviewReq cfg id patch).url =
      cfg.apiBase ++ "/interview" ++
        buildQuery (some [("id", Scalar.str ("eq." ++ toString id))]) ∧
    (updateInterviewReq cfg id patch).body =
      some (stringify (.vobj (mergedFields cfg.username patch))) ∧
    (deleteInterviewReq cfg id).method = .DELETE ∧
    (deleteInterviewReq cfg id).url = (updateInterviewReq cfg id patch).url ∧
    (deleteInterviewReq cfg id).body = none ∧
    (updateQuestionReq cfg id patch).method = .PATCH ∧
    (updateQuestionReq cfg id patch).url =
      cfg.apiBase ++ "/question" ++
        buildQuery (some [("id", Scalar.str ("eq." ++ toString id))]) ∧
    (updateQuestionReq cfg id patch).body =
      some (stringify (.vobj (mergedFields cfg.username patch))) ∧
    (deleteQuestionReq cfg id).method = .DELETE ∧
    (deleteQuestionReq cfg id).url = (updateQuestionReq cfg id patch).url ∧
    (deleteQuestionReq cfg id).body = none ∧
    (updateApplicantReq cfg id patch).method = .PATCH ∧
    (updateApplicantReq cfg id patch).url =
      cfg.apiBase ++ "/applicant" ++
        buildQuery (some [("id", Scalar.str ("eq." ++ toString id))]) ∧
    (updateApplicantReq cfg id patch).body =
      some (stringify (.vobj (mergedFields cfg.username patch))) ∧
    (deleteApplicantReq cfg id).method = .DELETE ∧
    (deleteApplicantReq cfg id).url = (updateApplicantReq cfg id patch).url ∧
    (deleteApplicantReq cfg id).body = none ∧
    (updateApplicantAnswerReq cfg id patch).method = .PATCH ∧
    (updateApplicantAnswerReq cfg id patch).url =
      cfg.apiBase ++ "/applicant_answer" ++
        buildQuery (some [("id", Scalar.str ("eq." ++ toString id))]) ∧
    (updateApplicantAnswerReq cfg id patch).body =
      some (stringify (.vobj (mergedFields cfg.username patch))) ∧
    (deleteApplicantAnswerReq cfg id).method = .DELETE ∧
    (deleteApplicantAnswerReq cfg id).url =
      (updateApplicantAnswerReq cfg id patch).url ∧
    (deleteApplicantAnswerReq cfg id).body = none := by
  have hq : parseQuery (strDrop 1
      (buildQuery (some [("id", Scalar.str ("eq." ++ toString id))]))) =
      [("id", "eq." ++ toString id)] := by
    rw [parseQuery_buildQuery _ (by simp)]
    rfl
  have hnull : ∀ (parse : String → JsValue) (r : HttpResponse),
      httpOk r = true → r.text = "" → handleResponse parse r = .success .null := by
    intro parse r hr he
    simp [handleResponse, hr, he]
  exact ⟨hq, hnull, rfl, rfl, rfl, rfl, rfl, rfl, rfl, rfl, rfl, rfl, rfl, rfl,
    rfl, rfl, rfl, rfl, rfl, rfl, rfl, rfl, rfl, rfl, rfl, rfl⟩

/-- C7, witness: the resource-client theorem applied to the applicant
client at id 9 with the patch from the repository's own test, plus the
null result for a concrete empty 204 reply. -/
theorem resource_update_delete_witness :
    parseQuery (strDrop 1
        (buildQuery (some [("id", Scalar.str ("eq." ++ toString (9 : Int)))]))) =
      [("id", "eq.9")] ∧
    (updateApplicantReq ⟨"http://api", "jwt", "s4000000"⟩ 9
        [("interview_status", JsValue.vstr ("Completed"))]).method = .PATCH ∧
    handleResponse (fun _ => JsValue.vnull) ⟨204, none, ""⟩ =
      .success .null := by
  have h := resource_update_delete ⟨"http://api", "jwt", "s4000000"⟩ 9
    [("interview_status", JsValue.vstr ("Completed"))]
  exact ⟨h.1, h.2.2.2.2.2.2.2.2.2.2.2.2.2.2.1,
    h.2.1 (fun _ => JsValue.vnull) ⟨204, none, ""⟩ (by decide) rfl⟩

/-! ## Claim C2 -/

/-- C2: when the underlying request of a count query fails, `fetchCount`
returns 0 exactly when the propagated error message matches the
`status␣404` pattern (the backend's "no matching rows" condition as the
code detects it), and propagates every other failure unchanged. -/
theorem fetchCount_failure_policy (parse : String → JsValue)
    (r : HttpResponse) (h : httpOk r = false) :
    (fetchCount (handleResponse parse r) = .ok 0 ↔
      matchesStatus404 (errorMessage r) = true) ∧
    (matchesStatus404 (errorMessage r) = false →
      fetchCount (handleResponse parse r) = .error (errorMessage r)) := by
  have hr : handleResponse parse r = .failure (errorMessage r) := by
    simp [handleResponse, h]
  rw [hr]
  constructor
  · by_cases hm : matchesStatus404 (errorMessage r) <;> simp [fetchCount, hm]
  · intro hm
    simp [fetchCount, hm]

/-- C2, witness: the failure-policy theorem applied to the repository
test's 404 response (count collapses to zero) and to a 400 response (the
failure propagates unchanged). -/
theorem fetchCount_failure_policy_witness :
    fetchCount (handleResponse (fun _ => JsValue.vnull)
        ⟨404, some ("application/json"), "Results contain 0 rows"⟩) =
      .ok 0 ∧
    fetchCount (handleResponse (fun _ => JsValue.vnull)
        ⟨400, some ("application/json"), "bad request"⟩) =
      .error (errorMessage ⟨400, some ("application/json"), "bad request"⟩) := by
  have h1 := fetchCount_failure_policy (fun _ => JsValue.vnull)
    ⟨404, some ("application/json"), "Results contain 0 rows"⟩ (by decide)
  have h2 := fetchCount_failure_policy (fun _ => JsValue.vnull)
    ⟨400, some ("application/json"), "bad request"⟩ (by decide)
  exact ⟨h1.1.2 (by decide), h2.2 (by decide)⟩

/-! ## Claim C10 -/

/-- C10: on a successful count read whose rows cannot yield a usable count
— empty row list, first row without a `count` member, or a string count
that does not parse as a base-10 integer — `fetchCount` returns 0 rather
than failing. -/
theorem fetchCount_degenerate_rows (fs : List (String × JsValue)) (s : String) :
    fetchCount (.success (.parsed (.varr []))) = .ok 0 ∧
    (List.lookup "count" fs = none →
      fetchCount (.success (.parsed (.varr [.vobj fs]))) = .ok 0) ∧
    (jsParseInt10 s = none →
      fetchCount (.success (.parsed (.varr [.vobj [("count", .vstr s)]]))) =
        .ok 0) := by
  refine ⟨rfl, fun h => ?_, fun h => ?_⟩
  · simp [fetchCount, fetchCountCore, apiResultValue, jsIndexZero, countMember,
      h, countFromField]
  · simp [fetchCount, fetchCountCore, apiResultValue, jsIndexZero, countMember,
      countFromField, h]

/-- C10, witness: the degenerate-rows theorem applied to a first row with
no `count` member and to the unparsable string count `"abc"`. -/
theorem fetchCount_degenerate_rows_witness :
    fetchCount (.success (.parsed (.varr []))) = .ok 0 ∧
    fetchCount (.success (.parsed (.varr [.vobj [("id", JsValue.vnum 1)]]))) =
      .ok 0 ∧
    fetchCount (.success (.parsed (.varr [.vobj [("count",
        JsValue.vstr ("abc"))]]))) = .ok 0 := by
  have h := fetchCount_degenerate_rows [("id", JsValue.vnum 1)] ("abc")
  exact ⟨h.1, h.2.1 rfl, h.2.2 (by decide)⟩

/-! ## Claim C9 (code bug) -/

/-- C9 (code bug): `validateInterviewForm` accepts the unsupported status
`"Active"` — it reports no status error for a form whose status is a
non-empty string outside the closed set, although the repository's own
test expects the error `Status must be Draft, Published, or Archived.`. -/
theorem validateInterviewForm_unsupported_status :
    (("Active" : String) ≠ "Draft" ∧ ("Active" : String) ≠ "Published" ∧
      ("Active" : String) ≠ "Archived" ∧ ("Active" : String) ≠ "") ∧
    (validateInterviewForm
        ⟨"Technical Screen", "Frontend Engineer",
          "A short screening interview.", "Active"⟩).status = none := by
  exact ⟨by decide, rfl⟩

/-! ## Claim C4 -/

/-- The code of a decimal digit character. -/
theorem digitChar_code (n : Nat) : (digitChar n).toNat = 48 + n % 10 := by
  rw [digitChar]
  have h : n % 10 < 10 := Nat.mod_lt _ (by omega)
  generalize hk : n % 10 = k at h ⊢
  interval_cases k <;> decide

/-- The rendering of an in-range UTC clock reading is a valid ISO-8601 UTC
timestamp. -/
theorem isoUtc_valid (c : Clock) (h : validClock c) :
    isIso8601Utc (isoUtc c) = true := by
  obtain ⟨hy, hm1, hm2, hd1, hd2, hh, hmi, hs, hms⟩ := h
  have hdata : (isoUtc c).data =
      [digitChar (c.year / 1000), digitChar (c.year / 100),
        digitChar (c.year / 10), digitChar c.year, '-', digitChar (c.month / 10),
        digitChar c.month, '-', digitChar (c.day / 10), digitChar c.day, 'T',
        digitChar (c.hour / 10), digitChar c.hour, ':',
        digitChar (c.minute / 10), digitChar c.minute, ':',
        digitChar (c.second / 10), digitChar c.second, '.',
        digitChar (c.ms / 100), digitChar (c.ms / 10), digitChar c.ms, 'Z'] :=
    rfl
  rw [isIso8601Utc, hdata, isIsoChars]
  simp only [isDigitChar, digitVal, digitChar_code, Bool.and_eq_true,
    decide_eq_true_eq]
  repeat' apply And.intro
  all_goals first | rfl | trivial | omega

/-- C4 (spec-modelled): with the live-generation credential unset or empty,
the summarization gateway answers every fully valid request with HTTP 200
and a placeholder summary: `isPlaceholder` is true, the overview and
recommendation are non-empty and name the missing `GENAI_API_KEY`
configuration, and `generatedAt` is a valid ISO-8601 UTC timestamp. -/
theorem gateway_placeholder_branch (cfg : GatewayConfig) (now : Clock)
    (provider : ProviderOutcome) (req : SummaryRequest)
    (hkey : cfg.genaiApiKey = none ∨ cfg.genaiApiKey = some "")
    (hval : validationErrors req = [])
    (hid : req.username = cfg.authUsername)
    (hclock : validClock now) :
    summarizeApplicant cfg now provider req =
      .success 200 (placeholderSummary now req) ∧
    (placeholderSummary now req).isPlaceholder = true ∧
    (placeholderSummary now req).overview ≠ "" ∧
    (placeholderSummary now req).recommendation ≠ "" ∧
    listContains (("GENAI_API_KEY").data)
      ((placeholderSummary now req).overview.data) = true ∧
    listContains (("GENAI_API_KEY").data)
      ((placeholderSummary now req).recommendation.data) = true ∧
    isIso8601Utc (placeholderSummary now req).generatedAt = true := by
  refine ⟨?_, rfl, ?_, ?_, ?_, ?_, isoUtc_valid now hclock⟩
  · unfold summarizeApplicant
    rw [if_neg (by simp [hval]), if_neg (by simp [hid]), if_pos hkey]
  · exact (by decide : ¬ (placeholderOverview = ""))
  · exact (by decide : ¬ (placeholderRecommendation = ""))
  · exact (by decide :
      listContains (("GENAI_API_KEY").data) (placeholderOverview.data) = true)
  · exact (by decide :
      listContains (("GENAI_API_KEY").data) (placeholderRecommendation.data) =
        true)

/-- C4, witness: the placeholder theorem applied to a concrete unset-key
configuration, a valid request and an in-range clock reading. -/
theorem gateway_placeholder_branch_witness :
    validationErrors
        ⟨"s4000000", 42, 17, ⟨"Ms", "Asha", "Singh"⟩, "Front-end Developer",
          [⟨301, "Explain event delegation.", some ("I described events."),
            none, some 118⟩], none⟩ = [] ∧
    summarizeApplicant ⟨none, "s4000000"⟩ ⟨2025, 1, 15, 12, 30, 45, 123⟩
        .unavailable
        ⟨"s4000000", 42, 17, ⟨"Ms", "Asha", "Singh"⟩, "Front-end Developer",
          [⟨301, "Explain event delegation.", some ("I described events."),
            none, some 118⟩], none⟩ =
      .success 200 (placeholderSummary ⟨2025, 1, 15, 12, 30, 45, 123⟩
        ⟨"s4000000", 42, 17, ⟨"Ms", "Asha", "Singh"⟩, "Front-end Developer",
          [⟨301, "Explain event delegation.", some ("I described events."),
            none, some 118⟩], none⟩) ∧
    isIso8601Utc (placeholderSummary ⟨2025, 1, 15, 12, 30, 45, 123⟩
        ⟨"s4000000", 42, 17, ⟨"Ms", "Asha", "Singh"⟩, "Front-end Developer",
          [⟨301, "Explain event delegation.", some ("I described events."),
            none, some 118⟩], none⟩).generatedAt = true := by
  have h := gateway_placeholder_branch ⟨none, "s4000000"⟩
    ⟨2025, 1, 15, 12, 30, 45, 123⟩ .unavailable
    ⟨"s4000000", 42, 17, ⟨"Ms", "Asha", "Singh"⟩, "Front-end Developer",
      [⟨301, "Explain event delegation.", some ("I described events."),
        none, some 118⟩], none⟩
    (Or.inl rfl) rfl rfl (by unfold validClock; decide)
  exact ⟨rfl, h.1, h.2.2.2.2.2.2⟩
